import Mathlib

/-!
Verification development for the pocket-code terminal emulator core
(packages/libpocket-core/src/pocket_terminal.cpp and its header).

The embedding is a shallow one: the C++ state of a PocketTerminal object is
a Lean structure, and every member function of the class is translated to a
pure state-passing Lean function.  The embedded libvterm parser is external
to the repository; the core only observes it through the three callbacks it
installs (damage, movecursor, sb_pushline).  We therefore model a byte batch
fed to the parser by the list of callback invocations the parser performs,
and translate each callback body (onDamage, onMoveCursor, onSbPushLine)
faithfully from the source.  C machine integers of type int are modelled as
Int; uint32_t quantities are modelled as Nat with explicit bounds where
overflow or byte extraction matters; uint8_t colour channels are Nat values
below 256 (hypotheses in the theorems).
-/

/-- One cell as exposed to the renderer: the packed 16-byte TerminalCell
record of pocket_terminal.h (pragma pack(1): four consecutive uint32_t
fields ch, fg, bg, flags, hence sizeof(TerminalCell) = 16). -/
structure TerminalCell where
  ch : Nat
  fg : Nat
  bg : Nat
  flags : Nat
deriving DecidableEq, Inhabited

/-- The zero cell: what vector::resize value-initialization produces for the
packed POD TerminalCell record. -/
def zeroCell : TerminalCell := ⟨0, 0, 0, 0⟩

/-- A VTermColor after vterm_screen_convert_color_to_rgb: three uint8_t
channels.  Channel values are below 256; theorems carry that bound
explicitly where it matters. -/
structure VTermRGB where
  red : Nat
  green : Nat
  blue : Nat
deriving DecidableEq, Inhabited

/-- The attrs bitfield of a VTermScreenCell, as read by the callbacks. -/
structure VTermCellAttrs where
  bold : Bool
  underline : Bool
  italic : Bool
  blink : Bool
  reverse : Bool
  strike : Bool
deriving DecidableEq, Inhabited

/-- The part of a libvterm VTermScreenCell that the two conversion sites in
pocket_terminal.cpp read: chars[0], the palette-resolved fg/bg colours, the
attribute booleans and the width.  The colours are modelled after conversion
to RGB (both call sites call vterm_screen_convert_color_to_rgb before
composing). -/
structure VTermScreenCell where
  chars0 : Nat
  fg : VTermRGB
  bg : VTermRGB
  attrs : VTermCellAttrs
  width : Nat
deriving DecidableEq, Inhabited

/-- ARGB composition, exactly as written at pocket_terminal.cpp lines
202-205 and 269-272: (0xFF << 24) | (red << 16) | (green << 8) | blue,
left-associated as in C. -/
def composeColor (c : VTermRGB) : Nat :=
  (0xFF <<< 24) ||| (c.red <<< 16) ||| (c.green <<< 8) ||| c.blue

/-- The attribute bits of the flags word: the chain of conditional
flags |= (1 << k) statements at pocket_terminal.cpp lines 209-221 (and the
identical chain at lines 274-286). -/
def attrPart (a : VTermCellAttrs) : Nat :=
  let f0 : Nat := 0
  let f1 := if a.bold then f0 ||| (1 <<< 0) else f0
  let f2 := if a.underline then f1 ||| (1 <<< 1) else f1
  let f3 := if a.italic then f2 ||| (1 <<< 2) else f2
  let f4 := if a.blink then f3 ||| (1 <<< 3) else f3
  let f5 := if a.reverse then f4 ||| (1 <<< 4) else f4
  if a.strike then f5 ||| (1 <<< 5) else f5

/-- The whole flags word: attribute bits, then
flags |= ((vcell.width & 0xFF) << 8) (pocket_terminal.cpp lines 223 and
287). -/
def composeFlags (a : VTermCellAttrs) (width : Nat) : Nat :=
  attrPart a ||| ((width &&& 0xFF) <<< 8)

/-- Conversion of one parser cell to a packed TerminalCell.  The bodies of
the per-cell loops in onDamage (pocket_terminal.cpp lines 195-224) and
onSbPushLine (lines 260-288) are textually identical compositions; they are
factored into this one function. -/
def convertCell (v : VTermScreenCell) : TerminalCell :=
  { ch := v.chars0
    fg := composeColor v.fg
    bg := composeColor v.bg
    flags := composeFlags v.attrs v.width }

/-- A callback invocation performed by the embedded libvterm parser while
the core holds m_vtermMutex.  A damage event is the rectangle loop of
onDamage flattened to the list of (row, col, parser cell) positions it
visits; a moveCursor event carries the VTermPos fields (row, col) given to
onMoveCursor; an sbPushLine event carries the cells array given to
onSbPushLine (exactly cols entries; libvterm passes its current width). -/
inductive VTermEvent where
  | damage (updates : List (Nat × Nat × VTermScreenCell))
  | moveCursor (row col : Int)
  | sbPushLine (cells : List VTermScreenCell)
deriving DecidableEq

/-- Modelled from the spec: MAX_SCROLLBACK, the capacity m_maxScrollback of
the scrollback deque.  The member declaration is absent from the header
under src (the header predates the scrollback code in the .cpp), so the
default capacity 1000 is taken from the specification text. -/
def MAX_SCROLLBACK : Nat := 1000

/-- The state of one PocketTerminal object: the data members of class
PocketTerminal (pocket_terminal.h lines 61-84 plus the scrollback members
used by the .cpp).  The reader thread is represented by two booleans:
readerAlive (the readerLoop while-loop has not exited) and readerJoinable
(the std::thread object is joinable, i.e. spawned and not yet joined). -/
structure PocketTerminal where
  rows : Int
  cols : Int
  cursorX : Int
  cursorY : Int
  cellBuffer : List TerminalCell
  scrollback : List (List TerminalCell)
  maxScrollback : Nat
  ptyFd : Int
  pid : Int
  running : Bool
  readerAlive : Bool
  readerJoinable : Bool
deriving DecidableEq, Inhabited

/-- Getter getRows (pocket_terminal.h line 50). -/
def PocketTerminal.getRows (t : PocketTerminal) : Int := t.rows

/-- Getter getCols (pocket_terminal.h line 51). -/
def PocketTerminal.getCols (t : PocketTerminal) : Int := t.cols

/-- Getter getCursorX (pocket_terminal.h line 54). -/
def PocketTerminal.getCursorX (t : PocketTerminal) : Int := t.cursorX

/-- Getter getCursorY (pocket_terminal.h line 55). -/
def PocketTerminal.getCursorY (t : PocketTerminal) : Int := t.cursorY

/-- The constructor PocketTerminal::PocketTerminal (pocket_terminal.cpp
lines 25-57).  It throws std::invalid_argument when rows <= 0 or cols <= 0,
modelled as none; otherwise the members are initialized and
m_cellBuffer.resize(rows * cols) runs.  The int product is converted to
size_t, i.e. reduced modulo 2^64.  No PTY is attached and the scrollback is
empty. -/
def mkPocketTerminal (rows cols : Int) : Option PocketTerminal :=
  if rows ≤ 0 ∨ cols ≤ 0 then none
  else some
    { rows := rows
      cols := cols
      cursorX := 0
      cursorY := 0
      cellBuffer := List.replicate ((rows * cols) % (2 ^ 64 : Int)).toNat zeroCell
      scrollback := []
      maxScrollback := MAX_SCROLLBACK
      ptyFd := -1
      pid := -1
      running := false
      readerAlive := false
      readerJoinable := false }

/-- Effect of one parser callback on the terminal state, translated from
the three static callbacks of pocket_terminal.cpp.
damage (lines 176-228): for each visited (row, col), write the converted
cell at index row * m_cols + col of m_cellBuffer (an out-of-range index is
undefined behaviour in C++; List.set leaves the list unchanged there, and
the well-formedness predicate below rules the case out).
movecursor (lines 230-237): m_cursorX = pos.col; m_cursorY = pos.row,
recorded verbatim with no clamping.
sb_pushline (lines 252-301): convert the cells, then pop the front of the
deque when size() >= m_maxScrollback, then push_back. -/
def PocketTerminal.applyEvent (t : PocketTerminal) : VTermEvent → PocketTerminal
  | .damage updates =>
      let buf := updates.foldl
        (fun buf u => buf.set (u.1 * t.cols.toNat + u.2.1) (convertCell u.2.2))
        t.cellBuffer
      { t with cellBuffer := buf }
  | .moveCursor row col => { t with cursorX := col, cursorY := row }
  | .sbPushLine cells =>
      let rowData := cells.map convertCell
      let sb := if t.maxScrollback ≤ t.scrollback.length
                then t.scrollback.tail else t.scrollback
      { t with scrollback := sb ++ [rowData] }

/-- Feeding a list of callback invocations in order (one
vterm_input_write or vterm_set_size call under m_vtermMutex). -/
def PocketTerminal.feedEvents (t : PocketTerminal) (events : List VTermEvent) :
    PocketTerminal :=
  events.foldl PocketTerminal.applyEvent t

/-- std::vector resize semantics: shrink keeps the prefix, growth appends
value-initialized (zero) cells. -/
def listResize (l : List TerminalCell) (n : Nat) : List TerminalCell :=
  if n ≤ l.length then l.take n else l ++ List.replicate (n - l.length) zeroCell

/-- PocketTerminal::resize (pocket_terminal.cpp lines 66-88).  Early return
when the dimensions are unchanged; otherwise m_rows and m_cols are
assigned first, then under the mutex m_cellBuffer.resize(rows * cols) runs
(int product converted to size_t, i.e. modulo 2^64) and vterm_set_size is
called; the callbacks the parser performs during vterm_set_size are the
events argument, applied after the buffer resize exactly as in the source.
The trailing TIOCSWINSZ ioctl does not touch the object state.  Note the
source performs no positivity check on rows or cols here. -/
def PocketTerminal.resize (t : PocketTerminal) (rows cols : Int)
    (events : List VTermEvent) : PocketTerminal :=
  if rows = t.rows ∧ cols = t.cols then t
  else
    let t1 := { t with rows := rows, cols := cols,
                       cellBuffer := listResize t.cellBuffer
                         ((rows * cols) % (2 ^ 64 : Int)).toNat }
    t1.feedEvents events

/-- PocketTerminal::writeInput (pocket_terminal.cpp lines 90-102).  With a
PTY attached and running the bytes go to the pty fd (write(2)) and the
terminal state is untouched; otherwise the bytes are fed to the parser
under the mutex, which performs the given callback invocations.  The
size_t return value is not modelled; no claim mentions it. -/
def PocketTerminal.writeInput (t : PocketTerminal) (events : List VTermEvent) :
    PocketTerminal :=
  if 0 ≤ t.ptyFd ∧ t.running = true then t
  else t.feedEvents events

/-- PocketTerminal::pullScrollback (pocket_terminal.cpp lines 239-250).
Under the mutex: clear both out-parameters, then for each row of the deque
from front (oldest) to back push its length onto outRowLengths and append
its cells to outCells, then clear the deque.  Returns ((outCells,
outRowLengths), new state).  The C out-lengths are ints holding
row.size(); they are modelled as the Nat lengths themselves. -/
def PocketTerminal.pullScrollback (t : PocketTerminal) :
    (List TerminalCell × List Nat) × PocketTerminal :=
  ((t.scrollback.foldl (fun acc row => acc ++ row) [],
    t.scrollback.map List.length),
   { t with scrollback := [] })

/-- Little-endian byte decomposition of a uint32_t value (the host wire
order of the packed record). -/
def toLE4 (x : Nat) : List Nat :=
  [x % 256, x / 2 ^ 8 % 256, x / 2 ^ 16 % 256, x / 2 ^ 24 % 256]

/-- The 16 bytes of one packed TerminalCell: ch, fg, bg, flags in order,
each 4 little-endian bytes (pragma pack(1), no padding). -/
def cellToBytes (c : TerminalCell) : List Nat :=
  toLE4 c.ch ++ toLE4 c.fg ++ toLE4 c.bg ++ toLE4 c.flags

/-- The byte image of m_cellBuffer, the source region memcpy reads from. -/
def PocketTerminal.gridBytes (t : PocketTerminal) : List Nat :=
  (t.cellBuffer.map cellToBytes).flatten

/-- PocketTerminal::copyBufferOut (pocket_terminal.cpp lines 104-109).
Under the mutex: bytesToCopy = min(maxBytes, m_cellBuffer.size() *
sizeof(TerminalCell)) and memcpy of that many bytes out of the cell
buffer; sizeof(TerminalCell) = 16. -/
def PocketTerminal.copyBufferOut (t : PocketTerminal) (maxBytes : Nat) :
    List Nat :=
  t.gridBytes.take (min maxBytes (t.cellBuffer.length * 16))

/-- Outcome of the forkpty call in startPty: failure (return value below
zero; glibc forkpty returns -1 and leaves *amaster unassigned), or success
with the master fd stored through amaster and the child pid returned (in
the parent the pid is positive and the fd nonnegative). -/
inductive ForkResult where
  | fail
  | ok (fd : Int) (pid : Int)
deriving DecidableEq

/-- PocketTerminal::startPty (pocket_terminal.cpp lines 111-141).  Returns
false at once when m_running.  Otherwise m_pid = forkpty(&m_ptyFd, ...):
on failure m_pid receives the -1 return value and false is returned; on
success (parent branch) m_ptyFd and m_pid are set, m_running = true, the
reader thread is spawned, the initial TIOCSWINSZ ioctl is issued (no
object state), and true is returned. -/
def PocketTerminal.startPty (t : PocketTerminal) (fr : ForkResult) :
    PocketTerminal × Bool :=
  if t.running then (t, false)
  else
    match fr with
    | .fail => ({ t with pid := -1 }, false)
    | .ok fd pid =>
        ({ t with ptyFd := fd, pid := pid, running := true,
                  readerAlive := true, readerJoinable := true }, true)

/-- PocketTerminal::stopPty (pocket_terminal.cpp lines 143-157), written
field-wise: m_running = false; if m_ptyFd >= 0 close it and set -1; if
m_pid > 0 SIGKILL, waitpid and set -1; if joinable, join the reader thread
(closing the fd makes the blocked read return, so after the join the loop
has exited: readerAlive and readerJoinable are false on return). -/
def PocketTerminal.stopPty (t : PocketTerminal) : PocketTerminal :=
  { t with running := false
           ptyFd := if 0 ≤ t.ptyFd then -1 else t.ptyFd
           pid := if 0 < t.pid then -1 else t.pid
           readerAlive := false
           readerJoinable := false }

/-- The reader thread observing read(m_ptyFd) <= 0 (EOF or error,
pocket_terminal.cpp lines 166-171): the loop breaks and m_running = false
runs as the thread exits.  The fd is not closed and the child is not
reaped here; the source comment defers both to stopPty. -/
def PocketTerminal.readerEof (t : PocketTerminal) : PocketTerminal :=
  { t with running := false, readerAlive := false }

/-- One externally driven step: a writeInput call with the callback
invocations its parser feed performs (empty when the PTY path is taken), a
chunk delivered by the reader thread to vterm_input_write (pocket_terminal.cpp
lines 163-165), a resize call, a startPty with its fork outcome, a stopPty,
or the reader thread hitting EOF. -/
inductive TermOp where
  | writeInput (events : List VTermEvent)
  | readerData (events : List VTermEvent)
  | resize (rows cols : Int) (events : List VTermEvent)
  | startPty (fr : ForkResult)
  | stopPty
  | readerEof
deriving DecidableEq

/-- Applying one step to the terminal state. -/
def PocketTerminal.applyOp (t : PocketTerminal) : TermOp → PocketTerminal
  | .writeInput evs => t.writeInput evs
  | .readerData evs => t.feedEvents evs
  | .resize r c evs => t.resize r c evs
  | .startPty fr => (t.startPty fr).1
  | .stopPty => t.stopPty
  | .readerEof => t.readerEof

/-- Running a whole sequence of steps. -/
def PocketTerminal.run (t : PocketTerminal) (ops : List TermOp) : PocketTerminal :=
  ops.foldl PocketTerminal.applyOp t

/-- Modelled from the spec: the callback contract of the embedded libvterm
parser (spec sections 3, 4.B and 6; libvterm itself is not part of the
repository).  Relative to the current dimensions, a movecursor callback
carries a position inside the screen, a damage rectangle lies inside the
screen, and sb_pushline passes exactly the screen width many cells. -/
def eventWF (rows cols : Int) : VTermEvent → Prop
  | .moveCursor row col => 0 ≤ row ∧ row < rows ∧ 0 ≤ col ∧ col < cols
  | .damage updates => ∀ u ∈ updates, u.1 < rows.toNat ∧ u.2.1 < cols.toNat
  | .sbPushLine cells => (cells.length : Int) = cols

instance (rows cols : Int) (e : VTermEvent) : Decidable (eventWF rows cols e) :=
  match e with
  | .moveCursor row col =>
      inferInstanceAs (Decidable (0 ≤ row ∧ row < rows ∧ 0 ≤ col ∧ col < cols))
  | .damage updates =>
      inferInstanceAs (Decidable (∀ u ∈ updates, u.1 < rows.toNat ∧ u.2.1 < cols.toNat))
  | .sbPushLine cells =>
      inferInstanceAs (Decidable ((cells.length : Int) = cols))

/-- The cursor lies in [0, cols) x [0, rows). -/
def cursorWF (t : PocketTerminal) : Prop :=
  0 ≤ t.getCursorX ∧ t.getCursorX < t.getCols ∧
  0 ≤ t.getCursorY ∧ t.getCursorY < t.getRows

instance (t : PocketTerminal) : Decidable (cursorWF t) :=
  inferInstanceAs (Decidable (_ ∧ _ ∧ _ ∧ _))

/-- Fully-up session state as the spec words it: running, valid fd,
positive child pid, reader alive. -/
def fullyUp (t : PocketTerminal) : Prop :=
  t.running = true ∧ 0 ≤ t.ptyFd ∧ 0 < t.pid ∧ t.readerAlive = true

instance (t : PocketTerminal) : Decidable (fullyUp t) :=
  inferInstanceAs (Decidable (_ ∧ _ ∧ _ ∧ _))

/-- Fully-down session state: nothing running, fd and pid cleared to -1,
no reader thread. -/
def fullyDown (t : PocketTerminal) : Prop :=
  t.running = false ∧ t.ptyFd = -1 ∧ t.pid = -1 ∧
  t.readerAlive = false ∧ t.readerJoinable = false

instance (t : PocketTerminal) : Decidable (fullyDown t) :=
  inferInstanceAs (Decidable (_ ∧ _ ∧ _ ∧ _ ∧ _))

/-- Well-formed traces.  Parser-feeding steps carry the libvterm callback
contract (eventWF) for the current dimensions.  A resize step carries the
caller obligations the spec calls valid input (strictly positive
dimensions whose int product does not overflow) together with the libvterm
resize contract, modelled from the spec: vterm_set_size keeps the cursor
inside the new screen, so during the resize the parser either reports a
(new-screen) cursor position via movecursor, or the cursor already lay
inside the new screen. -/
inductive WFTrace : PocketTerminal → List TermOp → Prop
  | nil (t : PocketTerminal) : WFTrace t []
  | writeInput (t : PocketTerminal) (evs : List VTermEvent) (ops : List TermOp) :
      (∀ e ∈ evs, eventWF t.rows t.cols e) →
      WFTrace (t.applyOp (.writeInput evs)) ops →
      WFTrace t (.writeInput evs :: ops)
  | readerData (t : PocketTerminal) (evs : List VTermEvent) (ops : List TermOp) :
      (∀ e ∈ evs, eventWF t.rows t.cols e) →
      WFTrace (t.applyOp (.readerData evs)) ops →
      WFTrace t (.readerData evs :: ops)
  | resize (t : PocketTerminal) (rows cols : Int) (evs : List VTermEvent)
      (ops : List TermOp) :
      0 < rows → 0 < cols → rows * cols < 2 ^ 31 →
      (∀ e ∈ evs, eventWF rows cols e) →
      ((∃ r c, VTermEvent.moveCursor r c ∈ evs) ∨
        (t.cursorX < cols ∧ t.cursorY < rows)) →
      WFTrace (t.applyOp (.resize rows cols evs)) ops →
      WFTrace t (.resize rows cols evs :: ops)
  | startPty (t : PocketTerminal) (fr : ForkResult) (ops : List TermOp) :
      WFTrace (t.applyOp (.startPty fr)) ops →
      WFTrace t (.startPty fr :: ops)
  | stopPty (t : PocketTerminal) (ops : List TermOp) :
      WFTrace (t.applyOp .stopPty) ops →
      WFTrace t (.stopPty :: ops)
  | readerEof (t : PocketTerminal) (ops : List TermOp) :
      WFTrace (t.applyOp .readerEof) ops →
      WFTrace t (.readerEof :: ops)

/-- The combined state invariant behind claims C1 and C4: positive
dimensions whose int product does not overflow, a legal cursor, and a cell
buffer of exactly rows * cols cells. -/
def stateWF (t : PocketTerminal) : Prop :=
  0 < t.rows ∧ 0 < t.cols ∧ t.rows * t.cols < 2 ^ 31 ∧ cursorWF t ∧
  t.cellBuffer.length = (t.rows * t.cols).toNat

/-- A concrete 10 x 80 terminal (the construction in spec scenario 6). -/
def term1080 : PocketTerminal := (mkPocketTerminal 10 80).getD default

/-- A concrete 2 x 5 terminal (the construction in spec scenario 1). -/
def term25 : PocketTerminal := (mkPocketTerminal 2 5).getD default

/-- The 2 x 5 terminal right after a successful startPty whose forkpty
returned master fd 5 and child pid 100. -/
def tUpDemo : PocketTerminal := (term25.startPty (ForkResult.ok 5 100)).1

/-- The same session after the reader thread observed EOF (the child
exited) and no stopPty has been called yet. -/
def tEofDemo : PocketTerminal := tUpDemo.readerEof

/-- A concrete trace for the 10 x 80 terminal: an input batch that wraps
the cursor to row 1 column 20, then a shrink to 5 x 20 during which the
parser clamps the cursor (spec scenario 6). -/
def demoOps : List TermOp :=
  [TermOp.writeInput [VTermEvent.moveCursor 1 20],
   TermOp.resize 5 20 [VTermEvent.moveCursor 4 19]]

/-- A concrete parser cell: a bold letter A, opaque red on black, width 1. -/
def wideRedA : VTermScreenCell :=
  { chars0 := 65
    fg := { red := 255, green := 0, blue := 0 }
    bg := { red := 0, green := 0, blue := 0 }
    attrs := { bold := true, underline := false, italic := false,
               blink := false, reverse := false, strike := false }
    width := 1 }

/-- A concrete trace whose input batch pushes two scrollback lines. -/
def sbOps : List TermOp :=
  [TermOp.writeInput
    [VTermEvent.sbPushLine (List.replicate 5 default), VTermEvent.sbPushLine []]]

/-- The 2 x 5 terminal after the parser pushed two scrollback lines: one
full 5-cell row and one empty row. -/
def sbDemo : PocketTerminal :=
  term25.feedEvents
    [VTermEvent.sbPushLine (List.replicate 5 default),
     VTermEvent.sbPushLine []]

/-! ## Helper lemmas: bit composition -/

theorem or_mul_two_pow_add (a b n : Nat) (hb : b < 2 ^ n) :
    a * 2 ^ n ||| b = a * 2 ^ n + b := by
  rw [Nat.mul_comm]
  exact (Nat.mul_add_lt_is_or hb a).symm

theorem and_255_eq_mod (w : Nat) : w &&& 255 = w % 256 := by
  have h : (255 : Nat) = 2 ^ 8 - 1 := by norm_num
  rw [h, Nat.and_pow_two_sub_one_eq_mod]

theorem composeColor_eq (c : VTermRGB) (hr : c.red < 256) (hg : c.green < 256)
    (hb : c.blue < 256) :
    composeColor c = 0xFF * 2 ^ 24 + c.red * 2 ^ 16 + c.green * 2 ^ 8 + c.blue := by
  unfold composeColor
  rw [Nat.shiftLeft_eq, Nat.shiftLeft_eq, Nat.shiftLeft_eq,
      or_mul_two_pow_add 0xFF (c.red * 2 ^ 16) 24 (by omega)]
  have h1 : (0xFF : Nat) * 2 ^ 24 + c.red * 2 ^ 16 = (0xFF * 2 ^ 8 + c.red) * 2 ^ 16 := by
    ring
  rw [h1, or_mul_two_pow_add _ (c.green * 2 ^ 8) 16 (by omega)]
  have h2 : ((0xFF : Nat) * 2 ^ 8 + c.red) * 2 ^ 16 + c.green * 2 ^ 8
      = ((0xFF * 2 ^ 8 + c.red) * 2 ^ 8 + c.green) * 2 ^ 8 := by ring
  rw [h2, or_mul_two_pow_add _ c.blue 8 hb]
  try ring

theorem attrPart_lt (a : VTermCellAttrs) : attrPart a < 64 := by
  rcases a with ⟨b1, b2, b3, b4, b5, b6⟩
  cases b1 <;> cases b2 <;> cases b3 <;> cases b4 <;> cases b5 <;> cases b6 <;> decide

theorem composeFlags_eq (a : VTermCellAttrs) (w : Nat) :
    composeFlags a w = w % 256 * 2 ^ 8 + attrPart a := by
  unfold composeFlags
  rw [and_255_eq_mod, Nat.shiftLeft_eq, Nat.lor_comm,
      or_mul_two_pow_add _ _ 8 (by have := attrPart_lt a; omega)]

/-! ## Helper lemmas: field preservation by parser events -/

theorem applyEvent_rows (t : PocketTerminal) (e : VTermEvent) :
    (t.applyEvent e).rows = t.rows := by cases e <;> rfl

theorem applyEvent_cols (t : PocketTerminal) (e : VTermEvent) :
    (t.applyEvent e).cols = t.cols := by cases e <;> rfl

theorem applyEvent_maxScrollback (t : PocketTerminal) (e : VTermEvent) :
    (t.applyEvent e).maxScrollback = t.maxScrollback := by cases e <;> rfl

theorem foldl_set_length (cols : Nat) (ups : List (Nat × Nat × VTermScreenCell)) :
    ∀ buf : List TerminalCell,
      (ups.foldl (fun b u => b.set (u.1 * cols + u.2.1) (convertCell u.2.2)) buf).length
        = buf.length := by
  induction ups with
  | nil => intro buf; rfl
  | cons u us ih => intro buf; rw [List.foldl_cons, ih, List.length_set]

theorem applyEvent_length (t : PocketTerminal) (e : VTermEvent) :
    (t.applyEvent e).cellBuffer.length = t.cellBuffer.length := by
  cases e with
  | damage updates =>
      simpa [PocketTerminal.applyEvent] using
        foldl_set_length t.cols.toNat updates t.cellBuffer
  | moveCursor row col => rfl
  | sbPushLine cells => rfl

theorem feedEvents_rows (t : PocketTerminal) (evs : List VTermEvent) :
    (t.feedEvents evs).rows = t.rows := by
  induction evs generalizing t with
  | nil => rfl
  | cons e es ih => simpa [PocketTerminal.feedEvents, applyEvent_rows] using ih (t.applyEvent e)

theorem feedEvents_cols (t : PocketTerminal) (evs : List VTermEvent) :
    (t.feedEvents evs).cols = t.cols := by
  induction evs generalizing t with
  | nil => rfl
  | cons e es ih => simpa [PocketTerminal.feedEvents, applyEvent_cols] using ih (t.applyEvent e)

theorem feedEvents_maxScrollback (t : PocketTerminal) (evs : List VTermEvent) :
    (t.feedEvents evs).maxScrollback = t.maxScrollback := by
  induction evs generalizing t with
  | nil => rfl
  | cons e es ih =>
      simpa [PocketTerminal.feedEvents, applyEvent_maxScrollback] using ih (t.applyEvent e)

theorem feedEvents_length (t : PocketTerminal) (evs : List VTermEvent) :
    (t.feedEvents evs).cellBuffer.length = t.cellBuffer.length := by
  induction evs generalizing t with
  | nil => rfl
  | cons e es ih =>
      simpa [PocketTerminal.feedEvents, applyEvent_length] using ih (t.applyEvent e)

/-! ## Helper lemmas: cursor and grid invariants along traces -/

theorem cursorWF_def (t : PocketTerminal) : cursorWF t ↔
    (0 ≤ t.cursorX ∧ t.cursorX < t.cols ∧ 0 ≤ t.cursorY ∧ t.cursorY < t.rows) :=
  Iff.rfl

theorem feedEvents_cursorWF (evs : List VTermEvent) :
    ∀ t : PocketTerminal,
      (∀ e ∈ evs, eventWF t.rows t.cols e) →
      (cursorWF t ∨ ∃ r c, VTermEvent.moveCursor r c ∈ evs) →
      cursorWF (t.feedEvents evs) := by
  induction evs with
  | nil =>
      intro t _ hc
      rcases hc with h | ⟨r, c, hmem⟩
      · exact h
      · cases hmem
  | cons e es ih =>
      intro t hwf hc
      have hstep : t.feedEvents (e :: es) = (t.applyEvent e).feedEvents es := rfl
      rw [hstep]
      apply ih
      · intro x hx
        rw [applyEvent_rows, applyEvent_cols]
        exact hwf x (List.mem_cons_of_mem e hx)
      · cases e with
        | moveCursor row col =>
            left
            have h := hwf (VTermEvent.moveCursor row col) (List.mem_cons_self _ _)
            simp only [eventWF] at h
            simp only [cursorWF_def, PocketTerminal.applyEvent]
            exact ⟨h.2.2.1, h.2.2.2, h.1, h.2.1⟩
        | damage updates =>
            rcases hc with h | ⟨r, c, hmem⟩
            · left
              simpa [cursorWF_def, PocketTerminal.applyEvent] using h
            · right
              refine ⟨r, c, ?_⟩
              rcases List.mem_cons.mp hmem with heq | hmem2
              · simp at heq
              · exact hmem2
        | sbPushLine cells =>
            rcases hc with h | ⟨r, c, hmem⟩
            · left
              simpa [cursorWF_def, PocketTerminal.applyEvent] using h
            · right
              refine ⟨r, c, ?_⟩
              rcases List.mem_cons.mp hmem with heq | hmem2
              · simp at heq
              · exact hmem2

theorem listResize_length (l : List TerminalCell) (n : Nat) :
    (listResize l n).length = n := by
  unfold listResize
  split_ifs with h
  · rw [List.length_take]; omega
  · rw [List.length_append, List.length_replicate]; omega

theorem stateWF_feedEvents (t : PocketTerminal) (evs : List VTermEvent)
    (hwf : ∀ e ∈ evs, eventWF t.rows t.cols e) (h : stateWF t) :
    stateWF (t.feedEvents evs) := by
  obtain ⟨h1, h2, h3, h4, h5⟩ := h
  refine ⟨?_, ?_, ?_, ?_, ?_⟩
  · rw [feedEvents_rows]; exact h1
  · rw [feedEvents_cols]; exact h2
  · rw [feedEvents_rows, feedEvents_cols]; exact h3
  · exact feedEvents_cursorWF evs t hwf (Or.inl h4)
  · rw [feedEvents_length, feedEvents_rows, feedEvents_cols]; exact h5

theorem stateWF_startPty (t : PocketTerminal) (fr : ForkResult) (h : stateWF t) :
    stateWF (t.startPty fr).1 := by
  unfold PocketTerminal.startPty
  split_ifs with hr
  · exact h
  · cases fr with
    | fail => simpa [stateWF, cursorWF_def] using h
    | ok fd pid => simpa [stateWF, cursorWF_def] using h

theorem stateWF_stopPty (t : PocketTerminal) (h : stateWF t) :
    stateWF t.stopPty := by
  simpa [stateWF, cursorWF_def, PocketTerminal.stopPty] using h

theorem stateWF_readerEof (t : PocketTerminal) (h : stateWF t) :
    stateWF t.readerEof := by
  simpa [stateWF, cursorWF_def, PocketTerminal.readerEof] using h

theorem run_cons (t : PocketTerminal) (op : TermOp) (ops : List TermOp) :
    t.run (op :: ops) = (t.applyOp op).run ops := rfl

theorem stateWF_resize (t : PocketTerminal) (rows cols : Int)
    (evs : List VTermEvent) (hr : 0 < rows) (hc : 0 < cols)
    (hb : rows * cols < 2 ^ 31)
    (hevs : ∀ e ∈ evs, eventWF rows cols e)
    (hcur : (∃ r c, VTermEvent.moveCursor r c ∈ evs) ∨
      (t.cursorX < cols ∧ t.cursorY < rows))
    (h : stateWF t) : stateWF (t.resize rows cols evs) := by
  obtain ⟨h1, h2, h3, h4, h5⟩ := h
  unfold PocketTerminal.resize
  split_ifs with heq
  · exact ⟨h1, h2, h3, h4, h5⟩
  · have hlen : ((rows * cols) % (2 ^ 64 : Int)).toNat = (rows * cols).toNat := by
      rw [Int.emod_eq_of_lt (by positivity) (by omega)]
    refine ⟨?_, ?_, ?_, ?_, ?_⟩
    · rw [feedEvents_rows]; exact hr
    · rw [feedEvents_cols]; exact hc
    · rw [feedEvents_rows, feedEvents_cols]; exact hb
    · apply feedEvents_cursorWF evs _ hevs
      rcases hcur with hmc | ⟨hx, hy⟩
      · exact Or.inr hmc
      · exact Or.inl ⟨h4.1, hx, h4.2.2.1, hy⟩
    · rw [feedEvents_length, feedEvents_rows, feedEvents_cols,
          listResize_length, hlen]

theorem stateWF_run : ∀ {t : PocketTerminal} {ops : List TermOp},
    WFTrace t ops → stateWF t → stateWF (t.run ops) := by
  intro t ops htr
  induction htr with
  | nil t => intro h; exact h
  | writeInput t evs ops hevs htail ih =>
      intro h
      rw [run_cons]
      apply ih
      show stateWF (t.writeInput evs)
      unfold PocketTerminal.writeInput
      split_ifs with hc
      · exact h
      · exact stateWF_feedEvents t evs hevs h
  | readerData t evs ops hevs htail ih =>
      intro h
      rw [run_cons]
      exact ih (stateWF_feedEvents t evs hevs h)
  | resize t rows cols evs ops hr hc hb hevs hcur htail ih =>
      intro h
      rw [run_cons]
      exact ih (stateWF_resize t rows cols evs hr hc hb hevs hcur h)
  | startPty t fr ops htail ih =>
      intro h
      rw [run_cons]
      exact ih (stateWF_startPty t fr h)
  | stopPty t ops htail ih =>
      intro h
      rw [run_cons]
      exact ih (stateWF_stopPty t h)
  | readerEof t ops htail ih =>
      intro h
      rw [run_cons]
      exact ih (stateWF_readerEof t h)

theorem mk_stateWF {rows cols : Int} {t : PocketTerminal}
    (hmk : mkPocketTerminal rows cols = some t)
    (hb : rows * cols < 2 ^ 31) : stateWF t := by
  unfold mkPocketTerminal at hmk
  split_ifs at hmk with h
  obtain rfl := Option.some.inj hmk
  push_neg at h
  obtain ⟨hr, hc⟩ := h
  have h0 : (0 : Int) ≤ rows * cols := mul_nonneg (le_of_lt hr) (le_of_lt hc)
  have hlt : rows * cols < (2 ^ 64 : Int) := by omega
  have hlen : ((rows * cols) % (2 ^ 64 : Int)).toNat = (rows * cols).toNat := by
    rw [Int.emod_eq_of_lt h0 hlt]
  refine ⟨hr, hc, hb, ⟨le_refl 0, hc, le_refl 0, hr⟩, ?_⟩
  simpa [List.length_replicate] using hlen

/-! ## Helper lemmas: scrollback bound -/

theorem applyEvent_scrollback_le (t : PocketTerminal) (e : VTermEvent)
    (h : t.scrollback.length ≤ t.maxScrollback) (hmax : 1 ≤ t.maxScrollback) :
    (t.applyEvent e).scrollback.length ≤ (t.applyEvent e).maxScrollback := by
  cases e with
  | damage updates => simpa [PocketTerminal.applyEvent] using h
  | moveCursor row col => simpa [PocketTerminal.applyEvent] using h
  | sbPushLine cells =>
      simp only [PocketTerminal.applyEvent]
      split_ifs with hful <;>
        simp only [List.length_append, List.length_tail, List.length_cons,
          List.length_nil] <;> omega

theorem feedEvents_scrollback_le (evs : List VTermEvent) :
    ∀ t : PocketTerminal, t.scrollback.length ≤ t.maxScrollback →
      1 ≤ t.maxScrollback →
      (t.feedEvents evs).scrollback.length ≤ (t.feedEvents evs).maxScrollback := by
  induction evs with
  | nil => intro t h _; exact h
  | cons e es ih =>
      intro t h hmax
      have hstep : t.feedEvents (e :: es) = (t.applyEvent e).feedEvents es := rfl
      rw [hstep]
      exact ih (t.applyEvent e) (by
          simpa [applyEvent_maxScrollback] using applyEvent_scrollback_le t e h hmax)
        (by rw [applyEvent_maxScrollback]; exact hmax)

theorem applyOp_maxScrollback (t : PocketTerminal) (op : TermOp) :
    (t.applyOp op).maxScrollback = t.maxScrollback := by
  cases op with
  | writeInput evs =>
      show (t.writeInput evs).maxScrollback = _
      unfold PocketTerminal.writeInput
      split_ifs
      · rfl
      · exact feedEvents_maxScrollback t evs
  | readerData evs => exact feedEvents_maxScrollback t evs
  | resize rows cols evs =>
      show (t.resize rows cols evs).maxScrollback = _
      unfold PocketTerminal.resize
      split_ifs
      · rfl
      · exact feedEvents_maxScrollback _ evs
  | startPty fr =>
      show ((t.startPty fr).1).maxScrollback = _
      unfold PocketTerminal.startPty
      split_ifs
      · rfl
      · cases fr <;> rfl
  | stopPty => rfl
  | readerEof => rfl

theorem applyOp_scrollback_le (t : PocketTerminal) (op : TermOp)
    (h : t.scrollback.length ≤ t.maxScrollback) (hmax : 1 ≤ t.maxScrollback) :
    (t.applyOp op).scrollback.length ≤ t.maxScrollback := by
  cases op with
  | writeInput evs =>
      show (t.writeInput evs).scrollback.length ≤ _
      unfold PocketTerminal.writeInput
      split_ifs
      · exact h
      · have hle := feedEvents_scrollback_le evs t h hmax
        rwa [feedEvents_maxScrollback] at hle
  | readerData evs =>
      have hle := feedEvents_scrollback_le evs t h hmax
      rwa [feedEvents_maxScrollback] at hle
  | resize rows cols evs =>
      show (t.resize rows cols evs).scrollback.length ≤ _
      unfold PocketTerminal.resize
      split_ifs
      · exact h
      · have hle := feedEvents_scrollback_le evs
          { t with rows := rows, cols := cols,
                   cellBuffer := listResize t.cellBuffer
                     ((rows * cols) % (2 ^ 64 : Int)).toNat } h hmax
        rw [feedEvents_maxScrollback] at hle
        simpa using hle
  | startPty fr =>
      show ((t.startPty fr).1).scrollback.length ≤ _
      unfold PocketTerminal.startPty
      split_ifs
      · exact h
      · cases fr <;> simpa using h
  | stopPty => simpa [PocketTerminal.stopPty] using h
  | readerEof => simpa [PocketTerminal.readerEof] using h

theorem run_maxScrollback (ops : List TermOp) :
    ∀ t : PocketTerminal, (t.run ops).maxScrollback = t.maxScrollback := by
  induction ops with
  | nil => intro t; rfl
  | cons op rest ih =>
      intro t
      rw [run_cons, ih, applyOp_maxScrollback]

theorem run_scrollback_le (ops : List TermOp) :
    ∀ t : PocketTerminal, t.scrollback.length ≤ t.maxScrollback →
      1 ≤ t.maxScrollback →
      (t.run ops).scrollback.length ≤ (t.run ops).maxScrollback := by
  induction ops with
  | nil => intro t h _; exact h
  | cons op rest ih =>
      intro t h hmax
      rw [run_cons]
      exact ih (t.applyOp op)
        (by rw [applyOp_maxScrollback]; exact applyOp_scrollback_le t op h hmax)
        (by rw [applyOp_maxScrollback]; exact hmax)

/-! ## Helper lemmas: scrollback drain and byte copies -/

theorem foldl_append_flatten :
    ∀ (l : List (List TerminalCell)) (acc : List TerminalCell),
      l.foldl (fun a row => a ++ row) acc = acc ++ l.flatten := by
  intro l
  induction l with
  | nil => intro acc; simp
  | cons x xs ih => intro acc; simp [List.foldl_cons, ih, List.append_assoc]

theorem cellToBytes_length (c : TerminalCell) : (cellToBytes c).length = 16 := rfl

theorem gridBytes_length (t : PocketTerminal) :
    t.gridBytes.length = t.cellBuffer.length * 16 := by
  show ((t.cellBuffer.map cellToBytes).flatten).length = t.cellBuffer.length * 16
  induction t.cellBuffer with
  | nil => rfl
  | cons c cs ih =>
      simp only [List.map_cons, List.flatten_cons, List.length_append, ih,
        cellToBytes_length, List.length_cons]
      ring

/-! ## Claim theorems -/

/-- C1: for every well-formed sequence of writeInput, reader-data and
resize steps on a constructed terminal (the parser honouring its
documented callback contract), the cursor stays legal: every snapshot
reports a cursor inside [0, cols) x [0, rows) for the current dimensions,
in particular after a resize to strictly smaller dimensions. -/
theorem C1_cursor_stays_legal (rows cols : Int) (t : PocketTerminal)
    (ops : List TermOp) (hmk : mkPocketTerminal rows cols = some t)
    (hb : rows * cols < 2 ^ 31) (htr : WFTrace t ops) :
    0 ≤ (t.run ops).getCursorX ∧
    (t.run ops).getCursorX < (t.run ops).getCols ∧
    0 ≤ (t.run ops).getCursorY ∧
    (t.run ops).getCursorY < (t.run ops).getRows :=
  (stateWF_run htr (mk_stateWF hmk hb)).2.2.2.1

/-- C1 witness: the concrete scenario of spec scenario 6 — a 10 x 80
terminal, an input batch wrapping the cursor to (20, 1), then a shrink to
5 x 20. -/
theorem C1_witness :
    0 ≤ (term1080.run demoOps).getCursorX ∧
    (term1080.run demoOps).getCursorX < (term1080.run demoOps).getCols ∧
    0 ≤ (term1080.run demoOps).getCursorY ∧
    (term1080.run demoOps).getCursorY < (term1080.run demoOps).getRows := by
  have htr : WFTrace term1080 demoOps := by
    apply WFTrace.writeInput
    · decide
    · apply WFTrace.resize
      · decide
      · decide
      · decide
      · decide
      · exact Or.inl ⟨4, 19, by decide⟩
      · exact WFTrace.nil _
  exact C1_cursor_stays_legal 10 80 term1080 demoOps rfl (by decide) htr

/-- C4: for every well-formed sequence of writeInput, reader-data and
resize steps on a constructed terminal, the length of the cell grid
equals rows * cols for the current values of rows and cols. -/
theorem C4_grid_length (rows cols : Int) (t : PocketTerminal)
    (ops : List TermOp) (hmk : mkPocketTerminal rows cols = some t)
    (hb : rows * cols < 2 ^ 31) (htr : WFTrace t ops) :
    (t.run ops).cellBuffer.length =
      ((t.run ops).getRows * (t.run ops).getCols).toNat :=
  (stateWF_run htr (mk_stateWF hmk hb)).2.2.2.2

/-- C4 witness: the same concrete construction and trace, checked against
the 5 x 20 dimensions in force after the resize. -/
theorem C4_witness :
    (term1080.run demoOps).cellBuffer.length =
      ((term1080.run demoOps).getRows * (term1080.run demoOps).getCols).toNat := by
  have htr : WFTrace term1080 demoOps := by
    apply WFTrace.writeInput
    · decide
    · apply WFTrace.resize
      · decide
      · decide
      · decide
      · decide
      · exact Or.inl ⟨4, 19, by decide⟩
      · exact WFTrace.nil _
  exact C4_grid_length 10 80 term1080 demoOps rfl (by decide) htr

/-- C5: starting from any constructed terminal, after any sequence of
steps whatsoever the scrollback deque holds at most MAX_SCROLLBACK (1000)
lines: the push path evicts the oldest line first whenever the deque is
full, so the bound is preserved by every operation. -/
theorem C5_scrollback_bounded (rows cols : Int) (t : PocketTerminal)
    (ops : List TermOp) (hmk : mkPocketTerminal rows cols = some t) :
    (t.run ops).scrollback.length ≤ MAX_SCROLLBACK := by
  have hsb : t.scrollback = [] ∧ t.maxScrollback = MAX_SCROLLBACK := by
    unfold mkPocketTerminal at hmk
    split_ifs at hmk
    obtain rfl := Option.some.inj hmk
    exact ⟨rfl, rfl⟩
  have h := run_scrollback_le ops t
    (by rw [hsb.1, hsb.2]; exact Nat.zero_le _)
    (by rw [hsb.2]; norm_num [MAX_SCROLLBACK])
  rwa [run_maxScrollback, hsb.2] at h

/-- C5 witness: the concrete 2 x 5 terminal with a two-line push batch. -/
theorem C5_witness : (term25.run sbOps).scrollback.length ≤ MAX_SCROLLBACK :=
  C5_scrollback_bounded 2 5 term25 sbOps rfl

set_option maxRecDepth 10000 in
/-- C2: the constructor does reject non-positive dimensions (returns no
terminal), but resize performs no such validation: resizing a live 10 x 80
terminal to (0, 10) silently sets rows = 0, cols = 10 and shrinks the grid
to length 0, instead of failing with the state unchanged as the
specification requires.  This theorem evaluates the code at the failing
input. -/
theorem C2_resize_skips_validation :
    mkPocketTerminal 0 10 = none ∧
    mkPocketTerminal 10 (-1) = none ∧
    mkPocketTerminal (-3) 0 = none ∧
    term1080.getRows = 10 ∧ term1080.getCols = 80 ∧
    term1080.cellBuffer.length = 800 ∧
    (term1080.resize 0 10 []).getRows = 0 ∧
    (term1080.resize 0 10 []).getCols = 10 ∧
    (term1080.resize 0 10 []).cellBuffer.length = 0 := by
  decide

/-- C6: pullScrollback drains the deque front (oldest) to back: the
returned row_lengths list the stored lines in FIFO order, the returned
cells are their concatenation in that order, every row length is at most
cols whenever every stored line is (as at eviction time), the deque is
left empty, and an immediately repeated drain returns the empty snapshot.
A pushed line always lands at the back of the deque. -/
theorem C6_drain_fifo (t : PocketTerminal)
    (h : ∀ row ∈ t.scrollback, row.length ≤ t.cols.toNat) :
    t.pullScrollback.1.2 = t.scrollback.map List.length ∧
    t.pullScrollback.1.1 = t.scrollback.flatten ∧
    (∀ n ∈ t.pullScrollback.1.2, n ≤ t.cols.toNat) ∧
    t.pullScrollback.2.scrollback = [] ∧
    t.pullScrollback.2.pullScrollback.1 = ([], []) ∧
    (∀ cells : List VTermScreenCell,
      ((t.applyEvent (VTermEvent.sbPushLine cells)).scrollback).getLast?
        = some (cells.map convertCell)) := by
  refine ⟨rfl, ?_, ?_, rfl, rfl, ?_⟩
  · exact foldl_append_flatten t.scrollback []
  · intro n hn
    simp only [PocketTerminal.pullScrollback, List.mem_map] at hn
    obtain ⟨row, hrow, rfl⟩ := hn
    exact h row hrow
  · intro cells
    simp only [PocketTerminal.applyEvent]
    exact List.getLast?_concat _

/-- C6 witness: a 2 x 5 terminal with two pushed lines (lengths 5 and 0);
the drain returns lengths [5, 0], the ten cells in order, and leaves an
empty deque. -/
theorem C6_witness :
    sbDemo.pullScrollback.1.2 = sbDemo.scrollback.map List.length ∧
    sbDemo.pullScrollback.1.1 = sbDemo.scrollback.flatten ∧
    (∀ n ∈ sbDemo.pullScrollback.1.2, n ≤ sbDemo.cols.toNat) ∧
    sbDemo.pullScrollback.2.scrollback = [] ∧
    sbDemo.pullScrollback.2.pullScrollback.1 = ([], []) ∧
    (∀ cells : List VTermScreenCell,
      ((sbDemo.applyEvent (VTermEvent.sbPushLine cells)).scrollback).getLast?
        = some (cells.map convertCell)) :=
  C6_drain_fifo sbDemo (by decide)

/-- C7: every cell written to the grid or the scrollback composes its
colours as (0xFF << 24) | (R << 16) | (G << 8) | B from the
palette-resolved 8-bit channels — so the alpha byte of fg and bg is
always 0xFF — and composes flags with the cell width masked to 8 bits in
bits 8 to 15, the attribute bits in the low byte. -/
theorem C7_cell_encoding (v : VTermScreenCell)
    (hfr : v.fg.red < 256) (hfg : v.fg.green < 256) (hfb : v.fg.blue < 256)
    (hbr : v.bg.red < 256) (hbg : v.bg.green < 256) (hbb : v.bg.blue < 256) :
    (convertCell v).fg / 2 ^ 24 % 256 = 0xFF ∧
    (convertCell v).bg / 2 ^ 24 % 256 = 0xFF ∧
    (convertCell v).fg
      = 0xFF * 2 ^ 24 + v.fg.red * 2 ^ 16 + v.fg.green * 2 ^ 8 + v.fg.blue ∧
    (convertCell v).bg
      = 0xFF * 2 ^ 24 + v.bg.red * 2 ^ 16 + v.bg.green * 2 ^ 8 + v.bg.blue ∧
    (convertCell v).flags / 2 ^ 8 % 256 = v.width % 256 ∧
    (convertCell v).flags % 2 ^ 8 = attrPart v.attrs ∧
    (convertCell v).ch = v.chars0 := by
  have hfgc := composeColor_eq v.fg hfr hfg hfb
  have hbgc := composeColor_eq v.bg hbr hbg hbb
  have hfl := composeFlags_eq v.attrs v.width
  have hattr := attrPart_lt v.attrs
  have hcfg : (convertCell v).fg = composeColor v.fg := rfl
  have hcbg : (convertCell v).bg = composeColor v.bg := rfl
  have hcfl : (convertCell v).flags = composeFlags v.attrs v.width := rfl
  refine ⟨?_, ?_, ?_, ?_, ?_, ?_, rfl⟩
  · rw [hcfg, hfgc]; omega
  · rw [hcbg, hbgc]; omega
  · rw [hcfg, hfgc]
  · rw [hcbg, hbgc]
  · rw [hcfl, hfl]; omega
  · rw [hcfl, hfl]; omega

/-- C7 witness: a bold red letter A of width 1. -/
theorem C7_witness :
    (convertCell wideRedA).fg / 2 ^ 24 % 256 = 0xFF ∧
    (convertCell wideRedA).bg / 2 ^ 24 % 256 = 0xFF ∧
    (convertCell wideRedA).fg
      = 0xFF * 2 ^ 24 + wideRedA.fg.red * 2 ^ 16 + wideRedA.fg.green * 2 ^ 8
        + wideRedA.fg.blue ∧
    (convertCell wideRedA).bg
      = 0xFF * 2 ^ 24 + wideRedA.bg.red * 2 ^ 16 + wideRedA.bg.green * 2 ^ 8
        + wideRedA.bg.blue ∧
    (convertCell wideRedA).flags / 2 ^ 8 % 256 = wideRedA.width % 256 ∧
    (convertCell wideRedA).flags % 2 ^ 8 = attrPart wideRedA.attrs ∧
    (convertCell wideRedA).ch = wideRedA.chars0 :=
  C7_cell_encoding wideRedA (by decide) (by decide) (by decide)
    (by decide) (by decide) (by decide)

/-- C3 counterexample: a partial session state is observable.  Start a
session successfully (fd 5, pid 100); when the reader thread hits EOF
(the shell exits) it only clears running, leaving the pty fd open and the
child pid set until the next stopPty — a state that is neither fully up
nor fully down, observable between the startPty that returned true and
the matching stopPty. -/
theorem C3_counterexample :
    (term25.startPty (ForkResult.ok 5 100)).2 = true ∧
    tEofDemo.running = false ∧ tEofDemo.ptyFd = 5 ∧ tEofDemo.pid = 100 ∧
    ¬ fullyUp tEofDemo ∧ ¬ fullyDown tEofDemo := by
  decide

/-- C3 (amended): immediately after a startPty that returned true the
session is fully up, and after any stopPty it is fully down (for the fd
and pid shapes the session fields can take); but between a reader EOF and
the next stopPty the session can sit in a partial state (see the
counterexample). -/
theorem C3_session_up_down :
    (∀ (t t' : PocketTerminal) (fd pid : Int), 0 ≤ fd → 0 < pid →
        t.startPty (ForkResult.ok fd pid) = (t', true) → fullyUp t') ∧
    (∀ t : PocketTerminal, (t.ptyFd = -1 ∨ 0 ≤ t.ptyFd) →
        (t.pid = -1 ∨ 0 < t.pid) → fullyDown t.stopPty) := by
  constructor
  · intro t t' fd pid hfd hpid heq
    unfold PocketTerminal.startPty at heq
    split_ifs at heq with hr
    · simp at heq
    · injection heq with h1 h2
      rw [← h1]
      exact ⟨rfl, hfd, hpid, rfl⟩
  · intro t h1 h2
    refine ⟨rfl, ?_, ?_, rfl, rfl⟩
    · show (if 0 ≤ t.ptyFd then -1 else t.ptyFd) = -1
      split_ifs with h
      · rfl
      · rcases h1 with h1 | h1
        · exact h1
        · omega
    · show (if 0 < t.pid then -1 else t.pid) = -1
      split_ifs with h
      · rfl
      · rcases h2 with h2 | h2
        · exact h2
        · omega

/-- C3 witness: the concrete session (fd 5, pid 100) is fully up after
the successful start and fully down after stopPty. -/
theorem C3_witness : fullyUp tUpDemo ∧ fullyDown tUpDemo.stopPty :=
  ⟨C3_session_up_down.1 term25 tUpDemo 5 100 (by decide) (by decide) rfl,
   C3_session_up_down.2 tUpDemo (Or.inr (by decide)) (Or.inr (by decide))⟩

/-- C8 counterexample: a failing startPty is not always free of state
changes.  After a session ended by reader EOF without stopPty, the stale
child pid 100 is still stored; a startPty whose forkpty fails overwrites
it with the -1 return value, an observable change (the child is never
reaped by a later stopPty). -/
theorem C8_counterexample :
    (tEofDemo.startPty ForkResult.fail).2 = false ∧
    (tEofDemo.startPty ForkResult.fail).1 ≠ tEofDemo ∧
    tEofDemo.pid = 100 ∧ (tEofDemo.startPty ForkResult.fail).1.pid = -1 := by
  decide

/-- C8 (amended): startPty returns false in exactly two cases — a session
is already running, or forkpty fails.  When already running the state is
untouched; when forkpty fails from a non-running state the only write is
m_pid := -1 (the forkpty return value), so from a state whose child pid
is already -1 (in particular any fully-down state) no state change is
observable. -/
theorem C8_start_failure :
    (∀ (t : PocketTerminal) (fr : ForkResult),
        (t.startPty fr).2 = false ↔ (t.running = true ∨ fr = ForkResult.fail)) ∧
    (∀ (t : PocketTerminal) (fr : ForkResult),
        t.running = true → t.startPty fr = (t, false)) ∧
    (∀ t : PocketTerminal, t.running = false →
        t.startPty ForkResult.fail = ({ t with pid := -1 }, false)) ∧
    (∀ t : PocketTerminal, t.running = false → t.pid = -1 →
        t.startPty ForkResult.fail = (t, false)) := by
  refine ⟨?_, ?_, ?_, ?_⟩
  · intro t fr
    unfold PocketTerminal.startPty
    cases hr : t.running
    · cases fr <;> simp [hr]
    · simp [hr]
  · intro t fr hr
    unfold PocketTerminal.startPty
    simp [hr]
  · intro t hr
    unfold PocketTerminal.startPty
    simp [hr]
  · intro t hr hp
    have h1 : t.startPty ForkResult.fail = ({ t with pid := -1 }, false) := by
      unfold PocketTerminal.startPty
      simp [hr]
    have h2 : ({ t with pid := -1 } : PocketTerminal) = t := by
      rcases t with ⟨r, c, cx, cy, buf, sb, mx, fd, pid, run, alive, join⟩
      simp only at hp
      rw [hp]
    rw [h1, h2]

/-- C8 witness: on a freshly constructed (fully-down) terminal a failing
forkpty leaves the state exactly as it was, and a start attempt on a
running session reports failure. -/
theorem C8_witness :
    term25.startPty ForkResult.fail = (term25, false) ∧
    (tUpDemo.startPty ForkResult.fail).2 = false :=
  ⟨C8_start_failure.2.2.2 term25 (by decide) (by decide),
   (C8_start_failure.1 tUpDemo ForkResult.fail).mpr (Or.inl (by decide))⟩

/-- C9: stopPty is idempotent — a second call changes nothing, and on an
already fully-down terminal it is a no-op, not an error; after any
stopPty the running flag, reader-alive and reader-joinable flags are
cleared, and (for the fd and pid shapes the session fields can take) the
fd is closed and the child reaped, both fields reading -1. -/
theorem C9_stop_idempotent :
    (∀ t : PocketTerminal, t.stopPty.stopPty = t.stopPty) ∧
    (∀ t : PocketTerminal, fullyDown t → t.stopPty = t) ∧
    (∀ t : PocketTerminal, t.stopPty.running = false ∧
        t.stopPty.readerAlive = false ∧ t.stopPty.readerJoinable = false) ∧
    (∀ t : PocketTerminal, (t.ptyFd = -1 ∨ 0 ≤ t.ptyFd) →
        (t.pid = -1 ∨ 0 < t.pid) → t.stopPty.ptyFd = -1 ∧ t.stopPty.pid = -1) := by
  refine ⟨?_, ?_, ?_, ?_⟩
  · intro t
    rcases t with ⟨r, c, cx, cy, buf, sb, mx, fd, pid, run, alive, join⟩
    simp only [PocketTerminal.stopPty, PocketTerminal.mk.injEq, eq_self_iff_true,
      true_and, and_true]
    constructor <;> split_ifs <;> omega
  · intro t hd
    obtain ⟨h1, h2, h3, h4, h5⟩ := hd
    rcases t with ⟨r, c, cx, cy, buf, sb, mx, fd, pid, run, alive, join⟩
    simp only at h1 h2 h3 h4 h5
    subst h1; subst h2; subst h3; subst h4; subst h5
    simp [PocketTerminal.stopPty]
  · intro t
    exact ⟨rfl, rfl, rfl⟩
  · intro t h1 h2
    constructor
    · show (if 0 ≤ t.ptyFd then -1 else t.ptyFd) = -1
      split_ifs with h
      · rfl
      · rcases h1 with h1 | h1
        · exact h1
        · omega
    · show (if 0 < t.pid then -1 else t.pid) = -1
      split_ifs with h
      · rfl
      · rcases h2 with h2 | h2
        · exact h2
        · omega

/-- C9 witness: stopping the live demo session twice equals stopping it
once; stopping the freshly constructed (idle) terminal is a no-op; the
stopped session reads fd -1 and pid -1 with nothing running. -/
theorem C9_witness :
    tUpDemo.stopPty.stopPty = tUpDemo.stopPty ∧
    term25.stopPty = term25 ∧
    tUpDemo.stopPty.ptyFd = -1 ∧ tUpDemo.stopPty.pid = -1 :=
  ⟨C9_stop_idempotent.1 tUpDemo,
   C9_stop_idempotent.2.1 term25 (by decide),
   C9_stop_idempotent.2.2.2 tUpDemo (Or.inr (by decide)) (Or.inr (by decide))⟩

/-- C10: copyBufferOut copies exactly min(maxBytes, rows * cols * 16)
bytes: its output is the prefix of that length of the internal buffer
byte image, whose total length is rows * cols * 16, so the copy never
reads past the end of the cell buffer even when maxBytes is larger. -/
theorem C10_copy_bounds (t : PocketTerminal) (maxBytes : Nat)
    (h : t.cellBuffer.length = (t.getRows * t.getCols).toNat) :
    (t.copyBufferOut maxBytes).length
      = min maxBytes ((t.getRows * t.getCols).toNat * 16) ∧
    t.copyBufferOut maxBytes
      = t.gridBytes.take (min maxBytes ((t.getRows * t.getCols).toNat * 16)) ∧
    t.gridBytes.length = (t.getRows * t.getCols).toNat * 16 ∧
    min maxBytes ((t.getRows * t.getCols).toNat * 16) ≤ t.gridBytes.length := by
  have hg := gridBytes_length t
  rw [h] at hg
  refine ⟨?_, ?_, hg, ?_⟩
  · show (t.gridBytes.take (min maxBytes (t.cellBuffer.length * 16))).length = _
    rw [List.length_take, hg, h]
    omega
  · show t.gridBytes.take (min maxBytes (t.cellBuffer.length * 16)) = _
    rw [h]
  · rw [hg]
    omega

/-- C10 witness: the 2 x 5 terminal with a 1000-byte budget: the copy is
exactly 160 bytes, the full grid image. -/
theorem C10_witness :
    (term25.copyBufferOut 1000).length
      = min 1000 ((term25.getRows * term25.getCols).toNat * 16) ∧
    term25.copyBufferOut 1000
      = term25.gridBytes.take (min 1000 ((term25.getRows * term25.getCols).toNat * 16)) ∧
    term25.gridBytes.length = (term25.getRows * term25.getCols).toNat * 16 ∧
    min 1000 ((term25.getRows * term25.getCols).toNat * 16) ≤ term25.gridBytes.length :=
  C10_copy_bounds term25 1000 (by decide)
